import Mathlib

/-!
Verification development for `market_analyzer.py` (market-entry scoring tool).

The embedding models the core pipeline of `MarketEntryAnalyzer`:
  * `calculate_risk_score` (weighted risk scoring and rating buckets),
  * `forecast_metrics` (per-metric Holt trend forecasting and the derived
    growth rate / trend label),
  * `analyze_country` (composition against the current-snapshot dataset).

Numeric values are modelled as rationals (`ℚ`).  The instance state of the
Python class (`self.current_data`, `self.historical_data`, `self.risk_factors`)
is passed explicitly: each operation exists in a generalised form taking the
dataset as a parameter, and the top-level name applies it to the shipped
dataset constants, which are transcribed from the source verbatim.

The exponential-smoothing fit performed by `statsmodels.ExponentialSmoothing`
is not part of this repository's source; only the recursion shape (level +
trend smoothing, linear extrapolation) and its failure condition on series
shorter than two points are modelled, from the specification, parametric in
the smoothing coefficients `α` and `β`.  All theorems about the derivation
logic in `forecast_metrics` quantify over `α` and `β`, so they hold for
whatever coefficients the library's parameter estimation produces.
-/

namespace MarketAnalyzer

/-- One risk category record: a score and its qualitative factors
(`{'score': ..., 'factors': [...]}` in `prepare_risk_data`). -/
structure RiskCategoryData where
  score : ℚ
  factors : List String
  deriving DecidableEq

/-- A country's full risk profile: the four categories, in the insertion
order of the Python dict (`Political_Risk`, `Economic_Risk`,
`Operational_Risk`, `Technical_Risk`). -/
structure CountryRisk where
  Political_Risk : RiskCategoryData
  Economic_Risk : RiskCategoryData
  Operational_Risk : RiskCategoryData
  Technical_Risk : RiskCategoryData
  deriving DecidableEq

/-- Result record of `calculate_risk_score`: total weighted score, rating
label, and the per-category breakdown carried through unchanged. -/
structure RiskAssessment where
  total_score : ℚ
  risk_rating : String
  detailed_scores : CountryRisk
  deriving DecidableEq

/-- The weighted total risk score of `calculate_risk_score` (lines 279-288):
`sum(weights[risk_type] * risk_data['score'] for ...)` with weights
Political 0.25, Economic 0.30, Operational 0.20, Technical 0.25. -/
def totalScoreOf (r : CountryRisk) : ℚ :=
  0.25 * r.Political_Risk.score + 0.30 * r.Economic_Risk.score
    + 0.20 * r.Operational_Risk.score + 0.25 * r.Technical_Risk.score

/-- The rating bucket chain of `calculate_risk_score` (lines 290-300). -/
def riskRatingOf (total_score : ℚ) : String :=
  if total_score ≤ 15 then "Very Low Risk"
  else if total_score ≤ 25 then "Low Risk"
  else if total_score ≤ 35 then "Moderate Risk"
  else if total_score ≤ 45 then "High Risk"
  else "Very High Risk"

/-- `calculate_risk_score` generalised over the risk dataset
(`self.risk_factors` in the source).  Returns `none` ("not found") when the
country has no risk profile. -/
def calculateRiskScoreIn (risks : List (String × CountryRisk)) (country : String) :
    Option RiskAssessment :=
  match risks.lookup country with
  | none => none
  | some r =>
      some { total_score := totalScoreOf r
             risk_rating := riskRatingOf (totalScoreOf r)
             detailed_scores := r }

/-- Risk profile of Japan from `prepare_risk_data`. -/
def japanRisk : CountryRisk where
  Political_Risk :=
    { score := 15
      factors := ["Stable political environment",
                  "Strong regulatory framework",
                  "Occasional policy shifts affecting business"] }
  Economic_Risk :=
    { score := 25
      factors := ["Deflation concerns",
                  "High public debt",
                  "Aging population impact"] }
  Operational_Risk :=
    { score := 20
      factors := ["Natural disaster vulnerability",
                  "High operating costs",
                  "Complex business culture"] }
  Technical_Risk :=
    { score := 15
      factors := ["Advanced digital infrastructure",
                  "High cybersecurity standards",
                  "Strong technological innovation",
                  "Skilled IT workforce"] }

/-- Risk profile of Brazil from `prepare_risk_data`. -/
def brazilRisk : CountryRisk where
  Political_Risk :=
    { score := 35
      factors := ["Political instability",
                  "Frequent regulatory changes",
                  "Corruption concerns"] }
  Economic_Risk :=
    { score := 30
      factors := ["Currency volatility",
                  "Inflation risk",
                  "Economic policy uncertainty"] }
  Operational_Risk :=
    { score := 40
      factors := ["Infrastructure limitations",
                  "Complex tax system",
                  "Security concerns"] }
  Technical_Risk :=
    { score := 35
      factors := ["Digital infrastructure gaps",
                  "Cybersecurity vulnerabilities",
                  "Limited tech talent pool",
                  "Uneven technological adoption"] }

/-- Risk profile of France from `prepare_risk_data`. -/
def franceRisk : CountryRisk where
  Political_Risk :=
    { score := 20
      factors := ["Labor union influence",
                  "EU regulatory compliance",
                  "Social movement impact"] }
  Economic_Risk :=
    { score := 25
      factors := ["High tax burden",
                  "EU economic dependencies",
                  "Labor market rigidity"] }
  Operational_Risk :=
    { score := 15
      factors := ["Strike frequency",
                  "Administrative complexity",
                  "High labor costs"] }
  Technical_Risk :=
    { score := 20
      factors := ["Good digital infrastructure",
                  "Moderate cybersecurity framework",
                  "Growing tech innovation",
                  "Competitive IT sector"] }

/-- Risk profile of Canada from `prepare_risk_data`. -/
def canadaRisk : CountryRisk where
  Political_Risk :=
    { score := 10
      factors := ["Stable political system",
                  "Strong property rights",
                  "Transparent regulations"] }
  Economic_Risk :=
    { score := 20
      factors := ["US economic dependency",
                  "Housing market volatility",
                  "Resource price sensitivity"] }
  Operational_Risk :=
    { score := 15
      factors := ["High labor costs",
                  "Inter-provincial trade barriers",
                  "Weather-related disruptions"] }
  Technical_Risk :=
    { score := 18
      factors := ["Strong digital infrastructure",
                  "Advanced cybersecurity measures",
                  "Growing tech ecosystem",
                  "High tech adoption rate"] }

/-- The shipped risk dataset `self.risk_factors`. -/
def risk_factors : List (String × CountryRisk) :=
  [("Japan", japanRisk), ("Brazil", brazilRisk),
   ("France", franceRisk), ("Canada", canadaRisk)]

/-- `calculate_risk_score` on the shipped dataset. -/
def calculate_risk_score (country : String) : Option RiskAssessment :=
  calculateRiskScoreIn risk_factors country

example : (calculate_risk_score "Japan").map RiskAssessment.total_score = some 19 := by
  norm_num [calculate_risk_score, calculateRiskScoreIn, risk_factors, List.lookup,
    japanRisk, totalScoreOf]

example : (calculate_risk_score "Japan").map RiskAssessment.risk_rating =
    some "Low Risk" := by
  norm_num [calculate_risk_score, calculateRiskScoreIn, risk_factors, List.lookup,
    japanRisk, totalScoreOf, riskRatingOf]

example : calculate_risk_score "Germany" = none := by
  simp [calculate_risk_score, calculateRiskScoreIn, risk_factors, List.lookup]

/-- A country's four historical metric series from `prepare_historical_data`,
each earliest-first, one value per year. -/
structure HistoricalRecord where
  GDP : List ℚ
  Population : List ℚ
  Consumer_Spending : List ℚ
  Economic_Growth : List ℚ
  deriving DecidableEq

/-- Modelled from the spec: the recursive level-and-trend update of the
additive-trend exponential-smoothing model fitted by
`statsmodels.ExponentialSmoothing(data, trend='add', seasonal=None)`,
whose own code is not part of this repository.  `l` and `b` are the
smoothed level and trend; `α` and `β` the smoothing coefficients. -/
def holtSmooth (α β : ℚ) (l b : ℚ) : List ℚ → ℚ × ℚ
  | [] => (l, b)
  | x :: xs =>
      let l2 := α * x + (1 - α) * (l + b)
      let b2 := β * (l2 - l) + (1 - β) * b
      holtSmooth α β l2 b2 xs

/-- Modelled from the spec: the fitted final (level, trend) state of the
Holt model.  A series with fewer than 2 points cannot initialise the trend
component: the library raises, which the caller's exception handler turns
into a failure signal, so the fit is `none` there. -/
def holtState (α β : ℚ) : List ℚ → Option (ℚ × ℚ)
  | x0 :: x1 :: rest => some (holtSmooth α β x0 (x1 - x0) (x1 :: rest))
  | _ => none

/-- Modelled from the spec: `fitted_model.forecast(years_ahead)` surfaces only
its last projected point, the linear extrapolation of the fitted level and
trend `years_ahead` steps past the last observation. -/
def holtForecast (α β : ℚ) (series : List ℚ) (years_ahead : Nat) : Option ℚ :=
  (holtState α β series).map (fun p => p.1 + (years_ahead : ℚ) * p.2)

/-- Per-metric forecast record built by `forecast_metrics` (lines 337-346). -/
structure ForecastResult where
  current_value : ℚ
  forecasted_value : ℚ
  growth_rate : ℚ
  trend : String
  deriving DecidableEq

/-- The per-metric body of the loop in `forecast_metrics` (lines 327-346):
fit the Holt model, take the last projected value, read the current value as
the last raw historical observation (`data.iloc[-1]`), derive the growth
rate and the trend label.  A fit failure is `none`. -/
def forecastMetric (α β : ℚ) (historical_values : List ℚ) (years_ahead : Nat) :
    Option ForecastResult :=
  match holtForecast α β historical_values years_ahead, historical_values.getLast? with
  | some future_value, some current_value =>
      let growth_rate := (future_value / current_value - 1) * 100
      some { current_value := current_value
             forecasted_value := future_value
             growth_rate := growth_rate
             trend := if growth_rate > 0 then "Increasing" else "Decreasing" }
  | _, _ => none

/-- The four per-metric forecasts of a country, keyed in the order of
`metrics_to_forecast`. -/
structure Forecasts where
  GDP : ForecastResult
  Population : ForecastResult
  Consumer_Spending : ForecastResult
  Economic_Growth : ForecastResult
  deriving DecidableEq

/-- `forecast_metrics` generalised over the historical dataset
(`self.historical_data`).  Unknown country is `none`.  The single
`try/except` of the source wraps the whole loop over the four metrics, so an
exception raised by any one metric's fit makes the whole call return `none`:
the all-or-nothing match below reflects that. -/
def forecastMetricsIn (α β : ℚ) (historical : List (String × HistoricalRecord))
    (country : String) (years_ahead : Nat) : Option Forecasts :=
  match historical.lookup country with
  | none => none
  | some r =>
      match forecastMetric α β r.GDP years_ahead,
            forecastMetric α β r.Population years_ahead,
            forecastMetric α β r.Consumer_Spending years_ahead,
            forecastMetric α β r.Economic_Growth years_ahead with
      | some g, some p, some cs, some eg =>
          some { GDP := g, Population := p, Consumer_Spending := cs, Economic_Growth := eg }
      | _, _, _, _ => none

/-- Historical series of Japan from `prepare_historical_data`. -/
def japanHist : HistoricalRecord where
  GDP := [5.16, 4.85, 4.39, 4.92, 4.87, 4.95, 5.08, 4.97, 4.94, 4.23]
  Population := [127.3, 127.1, 126.9, 126.7, 126.5, 126.3, 126.1, 125.8, 125.5, 125.2]
  Consumer_Spending := [2.98, 2.89, 2.82, 2.85, 2.88, 2.91, 2.94, 2.75, 2.82, 2.88]
  Economic_Growth := [1.6, 0.4, 1.2, 0.5, 2.2, 0.3, 0.7, -4.5, 1.6, 1.0]

/-- Historical series of Brazil from `prepare_historical_data`. -/
def brazilHist : HistoricalRecord where
  GDP := [2.47, 2.46, 1.80, 1.80, 2.06, 1.92, 1.88, 1.45, 1.61, 1.84]
  Population := [201.0, 202.8, 204.5, 206.2, 207.8, 209.3, 210.8, 212.2, 213.6, 214.3]
  Consumer_Spending := [1.52, 1.48, 1.12, 1.15, 1.28, 1.24, 1.22, 0.98, 1.08, 1.15]
  Economic_Growth := [3.0, 0.5, -3.5, -3.3, 1.3, 1.8, 1.2, -3.9, 4.6, 2.9]

/-- Historical series of France from `prepare_historical_data`. -/
def franceHist : HistoricalRecord where
  GDP := [2.81, 2.85, 2.43, 2.47, 2.59, 2.78, 2.73, 2.63, 2.96, 2.78]
  Population := [65.8, 66.2, 66.5, 66.7, 66.9, 67.2, 67.3, 67.4, 67.6, 67.8]
  Consumer_Spending := [1.62, 1.64, 1.42, 1.44, 1.52, 1.64, 1.61, 1.48, 1.72, 1.65]
  Economic_Growth := [0.6, 1.0, 1.1, 1.1, 2.3, 1.9, 1.8, -7.9, 6.8, 2.5]

/-- Historical series of Canada from `prepare_historical_data`. -/
def canadaHist : HistoricalRecord where
  GDP := [1.84, 1.80, 1.56, 1.53, 1.65, 1.72, 1.74, 1.64, 1.99, 2.00]
  Population := [35.2, 35.5, 35.8, 36.2, 36.5, 37.0, 37.6, 38.0, 38.2, 38.5]
  Consumer_Spending := [1.05, 1.02, 0.92, 0.91, 0.98, 1.02, 1.04, 0.96, 1.15, 1.18]
  Economic_Growth := [2.3, 2.9, 0.7, 1.1, 3.0, 2.8, 1.9, -5.2, 4.5, 3.4]

/-- The shipped historical dataset `self.historical_data`. -/
def historical_data : List (String × HistoricalRecord) :=
  [("Japan", japanHist), ("Brazil", brazilHist),
   ("France", franceHist), ("Canada", canadaHist)]

/-- `forecast_metrics` on the shipped dataset (the source's default horizon
is 5; callers pass it explicitly here). -/
def forecast_metrics (α β : ℚ) (country : String) (years_ahead : Nat) :
    Option Forecasts :=
  forecastMetricsIn α β historical_data country years_ahead

/-- A country's current-snapshot record from `prepare_market_data`.
`Market_Score` is `Option`-valued because `analyze_country` reads it with
`country_data.get('Market_Score', 0)`: the field may be absent from the dict
without an error, unlike the other fields which are read with `[...]`. -/
structure CountrySnapshot where
  GDP : ℚ
  Population : ℚ
  Consumer_Spending : ℚ
  Economic_Growth : ℚ
  Market_Score : Option ℚ
  Strengths : List String
  Weaknesses : List String
  deriving DecidableEq

/-- Left-pad a digit string with zeros to the given width. -/
def padZeros (width : Nat) (s : String) : String :=
  String.mk (List.replicate (width - s.length) '0') ++ s

/-- Fixed-point decimal rendering of a rational, modelling Python's
`f"{x:.1f}"` / `f"{x:.2f}"` format (every snapshot value in the dataset has
at most two decimal digits, so no rounding ties arise there). -/
def formatFixed (decimals : Nat) (q : ℚ) : String :=
  let scaled : ℤ := ⌊q * (10 : ℚ) ^ decimals + 1 / 2⌋
  let sign := if scaled < 0 then "-" else ""
  let n := scaled.natAbs
  if decimals = 0 then sign ++ toString n
  else sign ++ toString (n / 10 ^ decimals) ++ "." ++
    padZeros decimals (toString (n % 10 ^ decimals))

/-- The `current_metrics` dict built by `analyze_country` (lines 373-378):
formatted display strings with fixed unit suffixes. -/
def currentMetricsOf (s : CountrySnapshot) : List (String × String) :=
  [("Population", formatFixed 1 s.Population ++ " Million"),
   ("GDP", "$" ++ formatFixed 2 s.GDP ++ " Trillion USD"),
   ("Consumer_Spending", "$" ++ formatFixed 2 s.Consumer_Spending ++ " Trillion USD"),
   ("Economic_Growth", formatFixed 1 s.Economic_Growth ++ "%")]

/-- The status bucket chain of `analyze_country` (lines 364-371). -/
def statusOfScore (market_score : ℚ) : String :=
  if market_score ≥ 88 then "Highly Suitable"
  else if market_score ≥ 82 then "Very Suitable"
  else if market_score ≥ 75 then "Suitable"
  else "Moderately Suitable"

/-- The consolidated analysis record returned by `analyze_country`.
`forecasts` and `risk_analysis` are `Option`-valued: the source stores the
raw results of `forecast_metrics` / `calculate_risk_score`, which are `None`
on failure, without aborting the record. -/
structure CountryAnalysis where
  country : String
  market_score : ℚ
  status : String
  current_metrics : List (String × String)
  strengths : List String
  weaknesses : List String
  forecasts : Option Forecasts
  risk_analysis : Option RiskAssessment
  deriving DecidableEq

/-- `analyze_country` generalised over the three datasets (`self.current_data`,
`self.historical_data`, `self.risk_factors`).  Missing snapshot is `none`;
otherwise the record is always assembled, with sub-failures kept as `none`
fields.  `α`, `β` are the smoothing coefficients the forecaster's fit step
is parametric in. -/
def analyzeCountryIn (α β : ℚ) (current : List (String × CountrySnapshot))
    (historical : List (String × HistoricalRecord))
    (risks : List (String × CountryRisk)) (country : String) :
    Option CountryAnalysis :=
  match current.lookup country with
  | none => none
  | some s =>
      let market_score := s.Market_Score.getD 0
      some { country := country
             market_score := market_score
             status := statusOfScore market_score
             current_metrics := currentMetricsOf s
             strengths := s.Strengths
             weaknesses := s.Weaknesses
             forecasts := forecastMetricsIn α β historical country 5
             risk_analysis := calculateRiskScoreIn risks country }

/-- Snapshot of Japan from `prepare_market_data`. -/
def japanSnapshot : CountrySnapshot where
  GDP := 4.23
  Population := 125.2
  Consumer_Spending := 2.88
  Economic_Growth := 1.0
  Market_Score := some 88
  Strengths := ["Advanced Infrastructure and Technology",
                "Strong Financial System",
                "High Innovation Capacity"]
  Weaknesses := ["Slow Economic Growth",
                 "Complex Business Regulations",
                 "Limited Market Expansion Potential"]

/-- Snapshot of Brazil from `prepare_market_data`. -/
def brazilSnapshot : CountrySnapshot where
  GDP := 1.84
  Population := 214.3
  Consumer_Spending := 1.15
  Economic_Growth := 2.9
  Market_Score := some 82
  Strengths := ["Large Consumer Market",
                "Growing Middle Class",
                "Rich Natural Resources"]
  Weaknesses := ["Complex Regulatory Environment",
                 "Infrastructure Gaps",
                 "Bureaucratic Challenges"]

/-- Snapshot of France from `prepare_market_data`. -/
def franceSnapshot : CountrySnapshot where
  GDP := 2.78
  Population := 67.8
  Consumer_Spending := 1.65
  Economic_Growth := 2.5
  Market_Score := some 84
  Strengths := ["Strong Infrastructure Network",
                "Skilled Workforce",
                "Strategic EU Market Position"]
  Weaknesses := ["High Labor Costs",
                 "Complex Labor Laws",
                 "Moderate Economic Growth"]

/-- Snapshot of Canada from `prepare_market_data`. -/
def canadaSnapshot : CountrySnapshot where
  GDP := 2.00
  Population := 38.5
  Consumer_Spending := 1.18
  Economic_Growth := 3.4
  Market_Score := some 83
  Strengths := ["Strong Legal Framework",
                "Stable Financial System",
                "High-Quality Infrastructure"]
  Weaknesses := ["Small Domestic Market",
                 "High Business Operating Costs",
                 "Weather-Related Challenges"]

/-- The shipped snapshot dataset `self.current_data`. -/
def current_data : List (String × CountrySnapshot) :=
  [("Japan", japanSnapshot), ("Brazil", brazilSnapshot),
   ("France", franceSnapshot), ("Canada", canadaSnapshot)]

/-- `analyze_country` on the shipped datasets. -/
def analyze_country (α β : ℚ) (country : String) : Option CountryAnalysis :=
  analyzeCountryIn α β current_data historical_data risk_factors country

/-- Snapshot fixture whose country has neither historical series nor a risk
profile in the datasets it is analysed against. -/
def testSnapshot : CountrySnapshot where
  GDP := 1
  Population := 2
  Consumer_Spending := 3
  Economic_Growth := 4
  Market_Score := some 90
  Strengths := ["S1"]
  Weaknesses := ["W1"]

/-- Snapshot fixture whose dict has no `Market_Score` key. -/
def noScoreSnapshot : CountrySnapshot where
  GDP := 1
  Population := 2
  Consumer_Spending := 3
  Economic_Growth := 4
  Market_Score := none
  Strengths := ["S2"]
  Weaknesses := ["W2"]

/-- Historical fixture where exactly one of the four series (GDP) is too
short to fit, while the three siblings are fittable. -/
def shortGDPHist : HistoricalRecord where
  GDP := [4]
  Population := [1, 2]
  Consumer_Spending := [1, 2]
  Economic_Growth := [1, 2]

/-- A series with fewer than two points cannot initialise the Holt trend
state, so the per-metric forecast is a failure signal. -/
theorem forecastMetric_short (α β : ℚ) (s : List ℚ) (n : Nat) (h : s.length < 2) :
    forecastMetric α β s n = none := by
  cases s with
  | nil => rfl
  | cons a t =>
    cases t with
    | nil => rfl
    | cons b u => simp at h; omega

/-- When `forecastMetricsIn` succeeds, its four fields are exactly the
per-metric results on the country's stored series. -/
theorem forecastMetricsIn_eq_some (α β : ℚ) (historical : List (String × HistoricalRecord))
    (country : String) (years_ahead : Nat) (f : Forecasts)
    (h : forecastMetricsIn α β historical country years_ahead = some f) :
    ∃ r, historical.lookup country = some r ∧
      forecastMetric α β r.GDP years_ahead = some f.GDP ∧
      forecastMetric α β r.Population years_ahead = some f.Population ∧
      forecastMetric α β r.Consumer_Spending years_ahead = some f.Consumer_Spending ∧
      forecastMetric α β r.Economic_Growth years_ahead = some f.Economic_Growth := by
  unfold forecastMetricsIn at h
  split at h
  · exact absurd h (by simp)
  · rename_i r hl
    split at h
    · rename_i g p cs eg hg hp hcs heg
      injection h with h
      subst h
      exact ⟨r, hl, hg, hp, hcs, heg⟩
    · exact absurd h (by simp)

/-- C1: for every country with a four-category risk profile, `total_score`
is the exact weighted sum `0.25·Political + 0.30·Economic + 0.20·Operational
+ 0.25·Technical`, with no rounding; on the seed Japan profile
{15, 25, 20, 15} the total is 19 and the rating is "Low Risk". -/
theorem calculate_risk_total_is_weighted_sum :
    (∀ (risks : List (String × CountryRisk)) (country : String) (r : CountryRisk),
        risks.lookup country = some r →
        (calculateRiskScoreIn risks country).map RiskAssessment.total_score =
          some (0.25 * r.Political_Risk.score + 0.30 * r.Economic_Risk.score
            + 0.20 * r.Operational_Risk.score + 0.25 * r.Technical_Risk.score)) ∧
    (calculate_risk_score "Japan").map RiskAssessment.total_score = some 19 ∧
    (calculate_risk_score "Japan").map RiskAssessment.risk_rating = some "Low Risk" := by
  refine ⟨?_, ?_, ?_⟩
  · intro risks country r h
    simp [calculateRiskScoreIn, h, totalScoreOf]
  · norm_num [calculate_risk_score, calculateRiskScoreIn, risk_factors, List.lookup,
      japanRisk, totalScoreOf]
  · norm_num [calculate_risk_score, calculateRiskScoreIn, risk_factors, List.lookup,
      japanRisk, totalScoreOf, riskRatingOf]

theorem calculate_risk_total_is_weighted_sum_witness :
    (calculateRiskScoreIn risk_factors "Japan").map RiskAssessment.total_score =
      some (0.25 * (15 : ℚ) + 0.30 * 25 + 0.20 * 20 + 0.25 * 15) :=
  calculate_risk_total_is_weighted_sum.1 risk_factors "Japan" japanRisk (by
    simp [risk_factors, List.lookup])

/-- C2: the risk-rating label is chosen by ascending inclusive upper bounds
with first match winning: `≤15` Very Low, `≤25` Low, `≤35` Moderate, `≤45`
High, `>45` Very High; exactly 15 is "Very Low Risk" and exactly 45 is
"High Risk". -/
theorem risk_rating_bucket_policy :
    (∀ t : ℚ,
      (t ≤ 15 → riskRatingOf t = "Very Low Risk") ∧
      (15 < t → t ≤ 25 → riskRatingOf t = "Low Risk") ∧
      (25 < t → t ≤ 35 → riskRatingOf t = "Moderate Risk") ∧
      (35 < t → t ≤ 45 → riskRatingOf t = "High Risk") ∧
      (45 < t → riskRatingOf t = "Very High Risk")) ∧
    riskRatingOf 15 = "Very Low Risk" ∧ riskRatingOf 45 = "High Risk" := by
  have hmain : ∀ t : ℚ,
      (t ≤ 15 → riskRatingOf t = "Very Low Risk") ∧
      (15 < t → t ≤ 25 → riskRatingOf t = "Low Risk") ∧
      (25 < t → t ≤ 35 → riskRatingOf t = "Moderate Risk") ∧
      (35 < t → t ≤ 45 → riskRatingOf t = "High Risk") ∧
      (45 < t → riskRatingOf t = "Very High Risk") := by
    intro t
    unfold riskRatingOf
    refine ⟨fun h => if_pos h, fun h1 h2 => ?_, fun h1 h2 => ?_, fun h1 h2 => ?_,
      fun h1 => ?_⟩
    · rw [if_neg (by linarith), if_pos h2]
    · rw [if_neg (by linarith), if_neg (by linarith), if_pos h2]
    · rw [if_neg (by linarith), if_neg (by linarith), if_neg (by linarith), if_pos h2]
    · rw [if_neg (by linarith), if_neg (by linarith), if_neg (by linarith),
        if_neg (by linarith)]
  exact ⟨hmain, (hmain 15).1 le_rfl, (hmain 45).2.2.2.1 (by norm_num) le_rfl⟩

theorem risk_rating_bucket_policy_witness :
    riskRatingOf 30 = "Moderate Risk" :=
  (risk_rating_bucket_policy.1 30).2.2.1 (by norm_num) (by norm_num)

/-- C3: every metric forecast produced carries `growth_rate =
(forecasted_value / current_value − 1) × 100` with `current_value` the last
raw historical observation, and `trend` is "Increasing" exactly when the
growth rate is strictly positive, "Decreasing" otherwise (0 included); and
the forecaster's four output fields are exactly these per-metric results. -/
theorem forecast_growth_rate_and_trend :
    (∀ (α β : ℚ) (series : List ℚ) (years_ahead : Nat) (fr : ForecastResult),
      forecastMetric α β series years_ahead = some fr →
      series.getLast? = some fr.current_value ∧
      fr.growth_rate = (fr.forecasted_value / fr.current_value - 1) * 100 ∧
      fr.trend = (if fr.growth_rate > 0 then "Increasing" else "Decreasing") ∧
      (fr.growth_rate > 0 → fr.trend = "Increasing") ∧
      (fr.growth_rate ≤ 0 → fr.trend = "Decreasing")) ∧
    (∀ (α β : ℚ) (historical : List (String × HistoricalRecord))
      (country : String) (years_ahead : Nat) (f : Forecasts),
      forecastMetricsIn α β historical country years_ahead = some f →
      ∃ r, historical.lookup country = some r ∧
        forecastMetric α β r.GDP years_ahead = some f.GDP ∧
        forecastMetric α β r.Population years_ahead = some f.Population ∧
        forecastMetric α β r.Consumer_Spending years_ahead = some f.Consumer_Spending ∧
        forecastMetric α β r.Economic_Growth years_ahead = some f.Economic_Growth) := by
  constructor
  · intro α β s y fr h
    unfold forecastMetric at h
    cases hf : holtForecast α β s y with
    | none => rw [hf] at h; cases h
    | some fut =>
      cases hl : s.getLast? with
      | none => rw [hf, hl] at h; cases h
      | some cur =>
        rw [hf, hl] at h
        simp only [Option.some.injEq] at h
        subst h
        exact ⟨rfl, rfl, rfl, fun hpos => if_pos hpos, fun hnp => if_neg (not_lt.mpr hnp)⟩
  · exact fun α β hist c y f h => forecastMetricsIn_eq_some α β hist c y f h

theorem forecast_growth_rate_and_trend_witness :
    [(1 : ℚ), 2].getLast? = some (2 : ℚ) ∧ (50 : ℚ) = ((3 : ℚ) / 2 - 1) * 100 := by
  have h := forecast_growth_rate_and_trend.1 (1/2) (1/2) [1, 2] 1
    ⟨2, 3, 50, "Increasing"⟩ (by
      norm_num [forecastMetric, holtForecast, holtState, holtSmooth])
  exact ⟨h.1, h.2.1⟩

/-- C4: the status label is chosen by descending inclusive lower bounds with
first match winning: `≥88` Highly Suitable, `≥82` Very Suitable, `≥75`
Suitable, otherwise Moderately Suitable; Canada's seed market score 83
yields "Very Suitable". -/
theorem status_bucket_policy :
    (∀ m : ℚ,
      (88 ≤ m → statusOfScore m = "Highly Suitable") ∧
      (82 ≤ m → m < 88 → statusOfScore m = "Very Suitable") ∧
      (75 ≤ m → m < 82 → statusOfScore m = "Suitable") ∧
      (m < 75 → statusOfScore m = "Moderately Suitable")) ∧
    (∀ α β : ℚ, ∃ a, analyze_country α β "Canada" = some a ∧
      a.market_score = 83 ∧ a.status = "Very Suitable") := by
  constructor
  · intro m
    unfold statusOfScore
    refine ⟨fun h => if_pos h, fun h1 h2 => ?_, fun h1 h2 => ?_, fun h1 => ?_⟩
    · rw [if_neg (by simp; linarith), if_pos h1]
    · rw [if_neg (by simp; linarith), if_neg (by simp; linarith), if_pos h1]
    · rw [if_neg (by simp; linarith), if_neg (by simp; linarith),
        if_neg (by simp; linarith)]
  · intro α β
    refine ⟨_, rfl, ?_, ?_⟩
    · norm_num [canadaSnapshot]
    · norm_num [canadaSnapshot, statusOfScore]

theorem status_bucket_policy_witness :
    statusOfScore 83 = "Very Suitable" ∧
      (∃ a, analyze_country (1/2) (1/2) "Canada" = some a ∧
        a.market_score = 83 ∧ a.status = "Very Suitable") :=
  ⟨(status_bucket_policy.1 83).2.1 (by norm_num) (by norm_num),
   status_bucket_policy.2 (1/2) (1/2)⟩

/-- C5: a country name absent from the dataset (the four seed countries)
gets a not-found signal (`none`) from the risk scorer, the forecaster, and
the analyzer alike — never a default or zeroed record. -/
theorem unknown_country_not_found :
    ∀ country : String,
      country ≠ "Japan" → country ≠ "Brazil" → country ≠ "France" → country ≠ "Canada" →
      calculate_risk_score country = none ∧
      (∀ (α β : ℚ) (years_ahead : Nat), forecast_metrics α β country years_ahead = none) ∧
      (∀ α β : ℚ, analyze_country α β country = none) := by
  intro c h1 h2 h3 h4
  have e1 : (c == "Japan") = false := beq_eq_false_iff_ne.mpr h1
  have e2 : (c == "Brazil") = false := beq_eq_false_iff_ne.mpr h2
  have e3 : (c == "France") = false := beq_eq_false_iff_ne.mpr h3
  have e4 : (c == "Canada") = false := beq_eq_false_iff_ne.mpr h4
  refine ⟨?_, fun α β y => ?_, fun α β => ?_⟩
  · simp [calculate_risk_score, calculateRiskScoreIn, risk_factors, List.lookup,
      e1, e2, e3, e4]
  · simp [forecast_metrics, forecastMetricsIn, historical_data, List.lookup,
      e1, e2, e3, e4]
  · simp [analyze_country, analyzeCountryIn, current_data, List.lookup,
      e1, e2, e3, e4]

theorem unknown_country_not_found_witness :
    calculate_risk_score "Germany" = none ∧
      forecast_metrics (1/2) (1/2) "Germany" 5 = none ∧
      analyze_country (1/2) (1/2) "Germany" = none := by
  obtain ⟨ha, hb, hc⟩ := unknown_country_not_found "Germany"
    (by decide) (by decide) (by decide) (by decide)
  exact ⟨ha, hb (1/2) (1/2) 5, hc (1/2) (1/2)⟩

/-- C6: whenever the snapshot lookup succeeds, the analyzer returns a full
record — country, market score, status, formatted metrics, strengths,
weaknesses — with the forecast and risk fields holding exactly the
sub-computations' results (so a sub-failure leaves only that field `none`);
it returns the not-found signal exactly when the snapshot lookup fails. -/
theorem analyze_country_graceful_degradation :
    ∀ (α β : ℚ) (current : List (String × CountrySnapshot))
      (historical : List (String × HistoricalRecord))
      (risks : List (String × CountryRisk)) (country : String),
      (∀ s, current.lookup country = some s →
        analyzeCountryIn α β current historical risks country =
          some { country := country
                 market_score := s.Market_Score.getD 0
                 status := statusOfScore (s.Market_Score.getD 0)
                 current_metrics := currentMetricsOf s
                 strengths := s.Strengths
                 weaknesses := s.Weaknesses
                 forecasts := forecastMetricsIn α β historical country 5
                 risk_analysis := calculateRiskScoreIn risks country }) ∧
      (current.lookup country = none →
        analyzeCountryIn α β current historical risks country = none) := by
  intro α β cur hist risks c
  constructor
  · intro s hs
    simp [analyzeCountryIn, hs]
  · intro hn
    simp [analyzeCountryIn, hn]

theorem analyze_country_graceful_degradation_witness :
    analyzeCountryIn (1/2) (1/2) [("Testland", testSnapshot)] [] [] "Testland" =
      some { country := "Testland"
             market_score := 90
             status := "Highly Suitable"
             current_metrics := currentMetricsOf testSnapshot
             strengths := ["S1"]
             weaknesses := ["W1"]
             forecasts := none
             risk_analysis := none } := by
  have h := (analyze_country_graceful_degradation (1/2) (1/2)
    [("Testland", testSnapshot)] [] [] "Testland").1 testSnapshot (by
      simp [List.lookup])
  rw [h]
  norm_num [testSnapshot, statusOfScore, forecastMetricsIn, calculateRiskScoreIn,
    List.lookup]

/-- C7 counterexample: with a dataset whose GDP series is a single point
while the three sibling series fit, the forecaster returns nothing at all
for the country — it does not return results for the metrics that fit. -/
theorem forecast_one_fit_failure_returns_nothing :
    (forecastMetric (1/2) (1/2) shortGDPHist.Population 5).isSome = true ∧
    (forecastMetric (1/2) (1/2) shortGDPHist.Consumer_Spending 5).isSome = true ∧
    (forecastMetric (1/2) (1/2) shortGDPHist.Economic_Growth 5).isSome = true ∧
    forecastMetric (1/2) (1/2) shortGDPHist.GDP 5 = none ∧
    forecastMetricsIn (1/2) (1/2) [("Japan", shortGDPHist)] "Japan" 5 = none :=
  ⟨rfl, rfl, rfl, rfl, rfl⟩

/-- C7 (amended): a fit failure on any one of the four metrics aborts the
whole per-country forecast — `forecast_metrics` returns the failure signal
for the country, surfacing no sibling results.  (No country of the shipped
dataset triggers this: all its series have 10 points.) -/
theorem forecast_fit_failure_aborts_country :
    ∀ (α β : ℚ) (historical : List (String × HistoricalRecord)) (country : String)
      (r : HistoricalRecord) (years_ahead : Nat),
      historical.lookup country = some r →
      (r.GDP.length < 2 ∨ r.Population.length < 2 ∨
        r.Consumer_Spending.length < 2 ∨ r.Economic_Growth.length < 2) →
      forecastMetricsIn α β historical country years_ahead = none := by
  intro α β hist c r y hl hshort
  have step : forecastMetricsIn α β hist c y =
      match forecastMetric α β r.GDP y, forecastMetric α β r.Population y,
            forecastMetric α β r.Consumer_Spending y,
            forecastMetric α β r.Economic_Growth y with
      | some g, some p, some cs, some eg =>
          some { GDP := g, Population := p, Consumer_Spending := cs, Economic_Growth := eg }
      | _, _, _, _ => none := by
    unfold forecastMetricsIn
    rw [hl]
  rw [step]
  rcases hshort with h | h | h | h
  · rw [forecastMetric_short α β r.GDP y h]
  · rw [forecastMetric_short α β r.Population y h]
    cases forecastMetric α β r.GDP y <;> rfl
  · rw [forecastMetric_short α β r.Consumer_Spending y h]
    cases forecastMetric α β r.GDP y <;> cases forecastMetric α β r.Population y <;> rfl
  · rw [forecastMetric_short α β r.Economic_Growth y h]
    cases forecastMetric α β r.GDP y <;> cases forecastMetric α β r.Population y <;>
      cases forecastMetric α β r.Consumer_Spending y <;> rfl

theorem forecast_fit_failure_aborts_country_witness :
    forecastMetricsIn (1/3) (1/3) [("Japan", shortGDPHist)] "Japan" 5 = none :=
  forecast_fit_failure_aborts_country (1/3) (1/3) [("Japan", shortGDPHist)]
    "Japan" shortGDPHist 5 rfl (Or.inl (by simp [shortGDPHist]))

/-- C8: a historical series with fewer than 2 points signals a fit failure
(`none`) from the per-metric forecaster, not a silent flat-line forecast. -/
theorem short_series_fit_failure :
    ∀ (α β : ℚ) (historical_values : List ℚ) (years_ahead : Nat),
      historical_values.length < 2 →
      forecastMetric α β historical_values years_ahead = none :=
  fun α β s n h => forecastMetric_short α β s n h

theorem short_series_fit_failure_witness :
    forecastMetric (1/2) (1/2) [(3 : ℚ)] 5 = none :=
  short_series_fit_failure (1/2) (1/2) [3] 5 (by simp)

/-- C9: the forecaster is deterministic — identical historical input for the
country and identical horizon give identical output. -/
theorem forecast_metrics_deterministic :
    ∀ (α β : ℚ) (histA histB : List (String × HistoricalRecord))
      (country : String) (years_ahead : Nat),
      histA.lookup country = histB.lookup country →
      forecastMetricsIn α β histA country years_ahead =
        forecastMetricsIn α β histB country years_ahead := by
  intro α β d1 d2 c y h
  unfold forecastMetricsIn
  rw [h]

theorem forecast_metrics_deterministic_witness :
    forecast_metrics (1/2) (1/2) "Japan" 5 = forecast_metrics (1/2) (1/2) "Japan" 5 :=
  forecast_metrics_deterministic (1/2) (1/2) historical_data historical_data
    "Japan" 5 rfl

/-- C10: a snapshot present in the dataset but lacking the `Market_Score`
key is not an error: the analyzer substitutes 0, returning a record with
market score 0 and status "Moderately Suitable". -/
theorem missing_market_score_defaults_to_zero :
    ∀ (α β : ℚ) (current : List (String × CountrySnapshot))
      (historical : List (String × HistoricalRecord))
      (risks : List (String × CountryRisk)) (country : String) (s : CountrySnapshot),
      current.lookup country = some s → s.Market_Score = none →
      ∃ a, analyzeCountryIn α β current historical risks country = some a ∧
        a.market_score = 0 ∧ a.status = "Moderately Suitable" := by
  intro α β cur hist risks c s hs hms
  simp only [analyzeCountryIn, hs]
  refine ⟨_, rfl, ?_, ?_⟩
  · simp [hms]
  · rw [hms]
    norm_num [statusOfScore]

theorem missing_market_score_defaults_to_zero_witness :
    ∃ a, analyzeCountryIn (1/2) (1/2) [("Testland", noScoreSnapshot)] [] []
        "Testland" = some a ∧
      a.market_score = 0 ∧ a.status = "Moderately Suitable" :=
  missing_market_score_defaults_to_zero (1/2) (1/2) [("Testland", noScoreSnapshot)]
    [] [] "Testland" noScoreSnapshot (by simp [List.lookup]) rfl

end MarketAnalyzer
